import Mathlib

/-!
Shallow embedding of `src/src/sources/decklinkdiscovery.cpp` and
`src/src/headers/decklinkdiscovery.hpp` (class `DeckLinkDiscovery` of the
softProjector project).

The C++ code talks to the Windows COM world: `CoInitializeEx`,
`CoCreateInstance` for the DeckLink iterator (with a primary and an
alternate interface GUID), and per-device COM queries
(`GetModelName`, `GetDisplayName`, `QueryInterface` for
`IDeckLinkProfileAttributes`, `GetInt` for the duplex and video-I/O-support
attributes).  The COM world is modelled by explicit environment records:
the outcomes of the COM calls are data, and the member functions become
pure state-passing functions over the object state `DState`
(the fields `m_deckLinkIterator`, `m_devices`, `m_initialized`,
`m_comInitialized`, `m_baseScreenIndex` of the class).

The C++ member function `DeckLinkDiscovery::initialize` is named
`initializeDiscovery` here; all other names follow the source.
-/

namespace DeckLinkDisc

/-- Qt's `QRect` as used by the code: origin and size, integer coordinates. -/
structure QRect where
  x : Int
  y : Int
  width : Int
  height : Int
deriving Repr, DecidableEq, Inhabited

/-- The flat record exposed per device: `struct DeckLinkDeviceInfo`
(decklinkdiscovery.hpp lines 46-53).  `deviceIndex` is a C++ `int` that the
code only ever sets to `screen count + loop counter`, both non-negative,
so it is a `Nat` here. -/
structure DeckLinkDeviceInfo where
  modelName : String
  displayName : String
  deviceIndex : Nat
  supportsPlayback : Bool
  geometry : QRect
deriving Repr, DecidableEq, Inhabited

/-- COM-side view of the `IDeckLinkProfileAttributes` interface of one device:
the results of the two `GetInt` calls the code makes.  `some v` means the call
returned `S_OK` and wrote `v`; `none` means it returned non-`S_OK`. -/
structure AttrCom where
  duplexMode : Option Int
  videoIOSupport : Option Int
deriving Repr, DecidableEq

/-- COM-side view of one `IDeckLink` device yielded by the iterator.
`modelName`/`displayName`: `some s` means the `GetModelName`/`GetDisplayName`
call returned `S_OK` with a non-null BSTR holding `s`.  `attributes`: `some a`
means `QueryInterface(IID_IDeckLinkProfileAttributes)` returned `S_OK` with a
non-null pointer whose behaviour is `a`. -/
structure DeviceCom where
  modelName : Option String
  displayName : Option String
  attributes : Option AttrCom
deriving Repr, DecidableEq

/-- How the enumeration pass interacts with the outside world.
`ok`: no C++ exception is thrown.  `throwInLoop`: an exception is thrown
inside the `try` block of `enumerateDevices` (caught there, devices cleared).
`throwBefore`: an exception is thrown before the `try` block (at the
`QApplication::screens()` call, after `m_devices.clear()`), escaping to the
caller. -/
inductive EnumOutcome
  | ok
  | throwInLoop
  | throwBefore
deriving Repr, DecidableEq

/-- Environment of one `enumerateDevices` run: the regular screens reported by
`QApplication::screens()`, the sequence the iterator's `Next` yields
(`none` = `S_OK` with a null device pointer, `some d` = `S_OK` with device `d`;
the list's end is `Next` returning non-`S_OK`), and the exception outcome. -/
structure ComEnv where
  screens : List QRect
  yields : List (Option DeviceCom)
  outcome : EnumOutcome
deriving Repr, DecidableEq

/-- Result of the `CoInitializeEx` call in `initializeCOM`:
`success` = `SUCCEEDED(result)`, `changedMode` = failed with
`RPC_E_CHANGED_MODE`, `otherFailure` = any other failure. -/
inductive CoInitResult
  | success
  | changedMode
  | otherFailure
deriving Repr, DecidableEq

/-- Environment of one `initialize` run: the `CoInitializeEx` outcome, whether
each of the two `CoCreateInstance` attempts (primary GUID, alternate GUID)
would return `S_OK`, and the enumeration environment. -/
structure InitEnv where
  coInit : CoInitResult
  primaryCreateOk : Bool
  altCreateOk : Bool
  comEnv : ComEnv
deriving Repr, DecidableEq

/-- The object state of `DeckLinkDiscovery` (decklinkdiscovery.hpp lines
78-82).  `m_deckLinkIterator` keeps only nullity: `true` = non-null. -/
structure DState where
  m_deckLinkIterator : Bool
  m_devices : List DeckLinkDeviceInfo
  m_initialized : Bool
  m_comInitialized : Bool
  m_baseScreenIndex : Nat
deriving Repr, DecidableEq

/-- The constructor's initial state (decklinkdiscovery.cpp lines 74-83). -/
def initialState : DState :=
  { m_deckLinkIterator := false, m_devices := [], m_initialized := false
  , m_comInitialized := false, m_baseScreenIndex := 0 }

/-- `isInitialized()` (decklinkdiscovery.hpp line 66). -/
def isInitialized (st : DState) : Bool := st.m_initialized

/-- The `virtualX` computation of `enumerateDevices` (lines 281-291): start at
0 and take each screen's right edge when it is larger than the accumulator. -/
def virtualXOf (screens : List QRect) : Int :=
  screens.foldl (fun vx s => if s.x + s.width > vx then s.x + s.width else vx) 0

/-- The body of the enumeration loop for one non-null yielded device
(lines 310-399): build the `DeckLinkDeviceInfo` record from the device's
queried attributes and the loop counter `devIdx`.  The `supportsPlayback`
default `false` of line 313 is always overwritten: every branch of the
attribute query assigns the flag. -/
def processDevice (base : Nat) (vx : Int) (devIdx : Nat) (d : DeviceCom) :
    DeckLinkDeviceInfo :=
  let modelName :=
    match d.modelName with
    | some s => s
    | none => "DeckLink Device " ++ toString (devIdx + 1)
  let displayName :=
    match d.displayName with
    | some s => s
    | none => modelName
  let supportsPlayback :=
    match d.attributes with
    | some a =>
      match a.videoIOSupport with
      | some v => Int.land v 1 != 0
      | none => true
    | none => true
  { modelName := modelName
  , displayName := displayName
  , deviceIndex := base + devIdx
  , supportsPlayback := supportsPlayback
  , geometry := { x := vx + (devIdx : Int) * 100, y := 0
                , width := 1920, height := 1080 } }

/-- The `while (m_deckLinkIterator->Next(&deckLink) == S_OK)` loop
(lines 302-404): a null yield is skipped by `continue` (neither appending a
record nor incrementing `deviceIndex`); a non-null yield appends one record
and increments `deviceIndex`. -/
def enumLoop (base : Nat) (vx : Int) :
    List (Option DeviceCom) → Nat → List DeckLinkDeviceInfo
  | [], _ => []
  | none :: rest, devIdx => enumLoop base vx rest devIdx
  | some d :: rest, devIdx =>
      processDevice base vx devIdx d :: enumLoop base vx rest (devIdx + 1)

/-- `DeckLinkDiscovery::enumerateDevices` (lines 262-420).  The boolean result
is `true` iff a C++ exception escapes the function (only possible before its
`try` block, after `m_devices.clear()`); an exception inside the `try` block
is caught and leaves `m_devices` cleared. -/
def enumerateDevices (env : ComEnv) (st : DState) : Bool × DState :=
  if !st.m_deckLinkIterator then (false, st)
  else
    match env.outcome with
    | .throwBefore => (true, { st with m_devices := [] })
    | .throwInLoop =>
        (false, { st with m_devices := [],
                          m_baseScreenIndex := env.screens.length })
    | .ok =>
        let base := env.screens.length
        let vx := virtualXOf env.screens
        (false, { st with m_baseScreenIndex := base,
                          m_devices := enumLoop base vx env.yields 0 })

/-- `DeckLinkDiscovery::initializeCOM` (lines 219-245): always reports
success; `m_comInitialized` is set unless `CoInitializeEx` failed with an
error other than `RPC_E_CHANGED_MODE`. -/
def initializeCOM (r : CoInitResult) (st : DState) : Bool × DState :=
  if st.m_comInitialized then (true, st)
  else
    match r with
    | .success => (true, { st with m_comInitialized := true })
    | .changedMode => (true, { st with m_comInitialized := true })
    | .otherFailure => (true, st)

/-- `DeckLinkDiscovery::shutdownCOM` (lines 247-260). -/
def shutdownCOM (st : DState) : DState :=
  if st.m_comInitialized then { st with m_comInitialized := false } else st

/-- The two `CoCreateInstance` attempts of `initialize` (lines 109-117):
the primary-GUID attempt, then, only if it failed, one attempt with the
alternate GUID.  Returns whether an iterator was obtained and how many
`CoCreateInstance` calls were made. -/
def createIterator (primaryOk altOk : Bool) : Bool × Nat :=
  if primaryOk then (true, 1) else (altOk, 2)

/-- `DeckLinkDiscovery::initialize` (lines 90-179), named
`initializeDiscovery` here.  Returns the C++ return value and the new state.
The function is total: every exception an enumeration run can raise is
handled inside it (the `catch (...)` of lines 158-174), so no error channel
appears in the type. -/
def initializeDiscovery (env : InitEnv) (st : DState) : Bool × DState :=
  if st.m_initialized then (true, st)
  else
    let st1 := (initializeCOM env.coInit st).2
    if !(createIterator env.primaryCreateOk env.altCreateOk).1 then
      let st2 := if st1.m_comInitialized then shutdownCOM st1 else st1
      (false, { st2 with m_deckLinkIterator := false,
                         m_initialized := false, m_devices := [] })
    else
      let st2 := { st1 with m_deckLinkIterator := true }
      match enumerateDevices env.comEnv st2 with
      | (true, st3) =>
          let st4 := { st3 with m_deckLinkIterator := false }
          let st5 := if st4.m_comInitialized then shutdownCOM st4 else st4
          (false, { st5 with m_initialized := false, m_devices := [] })
      | (false, st3) => (true, { st3 with m_initialized := true })

/-- `DeckLinkDiscovery::getAvailableDevices` (lines 206-216), Windows branch:
run `initialize` when not yet initialized, then return `m_devices`. -/
def getAvailableDevices (env : InitEnv) (st : DState) :
    List DeckLinkDeviceInfo × DState :=
  if !st.m_initialized then
    let st' := (initializeDiscovery env st).2
    (st'.m_devices, st')
  else (st.m_devices, st)

/-- The non-Windows build of `initialize` (lines 175-178): the `#else`
branch returns `false` unconditionally. -/
def initializeDiscoveryNonWin : Bool := false

/-- The non-Windows build of `getAvailableDevices` (lines 213-215): the
`#else` branch returns an empty `QList`. -/
def getAvailableDevicesNonWin : List DeckLinkDeviceInfo := []

/-- Specification-level enumeration, following the spec's words: walk the
iterator to exhaustion, and build one plain value record per yielded device
from that device's queried attributes and its position among the yielded
devices; nothing else contributes. -/
def specDeviceRecords (screens : List QRect)
    (yields : List (Option DeviceCom)) : List DeckLinkDeviceInfo :=
  ((yields.filterMap id).enum).map
    (fun p => processDevice screens.length (virtualXOf screens) p.1 p.2)

/-! ### Concrete sample values, used to instantiate the theorems -/

/-- A regular screen at the origin. -/
def sampleScreen : QRect := { x := 0, y := 0, width := 1920, height := 1080 }

/-- Attributes of a device whose video-I/O-support attribute reads 3
(bit 0 set: playback supported). -/
def sampleAttrs : AttrCom := { duplexMode := some 1, videoIOSupport := some 3 }

/-- A fully-responsive device. -/
def sampleDevice : DeviceCom :=
  { modelName := some "DeckLink Duo"
  , displayName := some "DeckLink Duo (1)"
  , attributes := some sampleAttrs }

/-- One screen, one device plus a null yield, no exception. -/
def sampleComEnv : ComEnv :=
  { screens := [sampleScreen], yields := [some sampleDevice, none]
  , outcome := .ok }

/-- Successful primary `CoCreateInstance`, clean COM, no exception. -/
def sampleInitEnv : InitEnv :=
  { coInit := .success, primaryCreateOk := true, altCreateOk := false
  , comEnv := sampleComEnv }

/-- Both `CoCreateInstance` attempts fail. -/
def failInitEnv : InitEnv :=
  { coInit := .success, primaryCreateOk := false, altCreateOk := false
  , comEnv := sampleComEnv }

/-- Iterator creation succeeds but enumeration throws before its `try`
block, so the exception escapes to the caller. -/
def throwBeforeEnv : InitEnv :=
  { coInit := .success, primaryCreateOk := true, altCreateOk := false
  , comEnv := { sampleComEnv with outcome := .throwBefore } }

/-- Enumeration environment whose run throws inside the `try` block. -/
def throwLoopComEnv : ComEnv := { sampleComEnv with outcome := .throwInLoop }

/-- State right after a successful iterator creation. -/
def iterState : DState := { initialState with m_deckLinkIterator := true }

/-- A state in which initialization has already succeeded. -/
def readyState : DState := { initialState with m_initialized := true }

/-- A screen entirely left of the origin: its right edge is negative. -/
def cexScreen : QRect := { x := -200, y := 0, width := 100, height := 100 }

/-- A device with no attribute interface. -/
def cexDevice : DeviceCom :=
  { modelName := some "DeckLink", displayName := some "DeckLink"
  , attributes := none }

/-! ### Helper lemmas about the enumeration loop -/

/-- Each non-null yield contributes exactly one record. -/
theorem enumLoop_length (base : Nat) (vx : Int) :
    ∀ (yields : List (Option DeviceCom)) (devIdx : Nat),
      (enumLoop base vx yields devIdx).length =
        yields.countP (fun o => o.isSome) := by
  intro yields
  induction yields with
  | nil => intro devIdx; simp [enumLoop]
  | cons o rest ih =>
    intro devIdx
    cases o with
    | none => simp [enumLoop, List.countP_cons, ih]
    | some d => simp [enumLoop, List.countP_cons, ih]

/-- The loop is the map of `processDevice` over the non-null yields paired
with their positions. -/
theorem enumLoop_eq_map_enumFrom (base : Nat) (vx : Int) :
    ∀ (yields : List (Option DeviceCom)) (devIdx : Nat),
      enumLoop base vx yields devIdx =
        ((yields.filterMap id).enumFrom devIdx).map
          (fun p => processDevice base vx p.1 p.2) := by
  intro yields
  induction yields with
  | nil => intro devIdx; simp [enumLoop]
  | cons o rest ih =>
    intro devIdx
    cases o with
    | none => simp [enumLoop, List.filterMap_cons, ih]
    | some d => simp [enumLoop, List.filterMap_cons, List.enumFrom_cons, ih]

/-- The `i`-th record produced by the loop started at counter `devIdx` has
device index `base + (devIdx + i)`. -/
theorem enumLoop_get_deviceIndex (base : Nat) (vx : Int) :
    ∀ (yields : List (Option DeviceCom)) (devIdx i : Nat)
      (h : i < (enumLoop base vx yields devIdx).length),
      ((enumLoop base vx yields devIdx).get ⟨i, h⟩).deviceIndex =
        base + (devIdx + i) := by
  intro yields
  induction yields with
  | nil => intro devIdx i h; simp [enumLoop] at h
  | cons o rest ih =>
    intro devIdx i h
    cases o with
    | none => exact ih devIdx i (by simpa [enumLoop] using h)
    | some d =>
      cases i with
      | zero => simp [enumLoop, processDevice]
      | succ j =>
        have hj : j < (enumLoop base vx rest (devIdx + 1)).length := by
          simpa [enumLoop] using h
        have := ih (devIdx + 1) j hj
        calc ((enumLoop base vx (some d :: rest) devIdx).get ⟨j + 1, h⟩).deviceIndex
            = ((enumLoop base vx rest (devIdx + 1)).get ⟨j, hj⟩).deviceIndex := rfl
          _ = base + (devIdx + 1 + j) := this
          _ = base + (devIdx + (j + 1)) := by omega

/-- The `i`-th record produced by the loop started at counter `devIdx` has
the synthesized geometry `(vx + (devIdx + i) * 100, 0, 1920, 1080)`. -/
theorem enumLoop_get_geometry (base : Nat) (vx : Int) :
    ∀ (yields : List (Option DeviceCom)) (devIdx i : Nat)
      (h : i < (enumLoop base vx yields devIdx).length),
      ((enumLoop base vx yields devIdx).get ⟨i, h⟩).geometry =
        { x := vx + ((devIdx + i : Nat) : Int) * 100, y := 0
        , width := 1920, height := 1080 } := by
  intro yields
  induction yields with
  | nil => intro devIdx i h; simp [enumLoop] at h
  | cons o rest ih =>
    intro devIdx i h
    cases o with
    | none => exact ih devIdx i (by simpa [enumLoop] using h)
    | some d =>
      cases i with
      | zero => simp [enumLoop, processDevice]
      | succ j =>
        have hj : j < (enumLoop base vx rest (devIdx + 1)).length := by
          simpa [enumLoop] using h
        have := ih (devIdx + 1) j hj
        calc ((enumLoop base vx (some d :: rest) devIdx).get ⟨j + 1, h⟩).geometry
            = ((enumLoop base vx rest (devIdx + 1)).get ⟨j, hj⟩).geometry := rfl
          _ = { x := vx + ((devIdx + 1 + j : Nat) : Int) * 100, y := 0
              , width := 1920, height := 1080 } := this
          _ = { x := vx + ((devIdx + (j + 1) : Nat) : Int) * 100, y := 0
              , width := 1920, height := 1080 } := by
                have : devIdx + 1 + j = devIdx + (j + 1) := by omega
                rw [this]

/-! ### Projection lemmas for shutdownCOM -/

@[simp]
theorem shutdownCOM_m_deckLinkIterator (st : DState) :
    (shutdownCOM st).m_deckLinkIterator = st.m_deckLinkIterator := by
  rw [shutdownCOM]; split <;> rfl

@[simp]
theorem shutdownCOM_m_devices (st : DState) :
    (shutdownCOM st).m_devices = st.m_devices := by
  rw [shutdownCOM]; split <;> rfl

@[simp]
theorem shutdownCOM_m_initialized (st : DState) :
    (shutdownCOM st).m_initialized = st.m_initialized := by
  rw [shutdownCOM]; split <;> rfl

/-! ### Helper lemmas about the virtual x origin -/

/-- The fold's seed never exceeds the fold. -/
theorem le_foldl_max (l : List Int) : ∀ a : Int, a ≤ l.foldl max a := by
  induction l with
  | nil => intro a; exact le_refl a
  | cons b bs ih =>
    intro a
    exact le_trans (le_max_left a b) (ih (max a b))

/-- Every member of the list is bounded by the max fold. -/
theorem mem_le_foldl_max (l : List Int) :
    ∀ (a x : Int), x ∈ l → x ≤ l.foldl max a := by
  induction l with
  | nil => intro a x hx; cases hx
  | cons b bs ih =>
    intro a x hx
    rcases List.mem_cons.mp hx with h | h
    · subst h
      exact le_trans (le_max_right a x) (le_foldl_max bs (max a x))
    · exact ih (max a b) x h

/-- The `if`-chain of the source is a fold of `max` over the right edges. -/
theorem virtualXOf_eq_foldl_max (screens : List QRect) :
    virtualXOf screens =
      (screens.map (fun s => s.x + s.width)).foldl max 0 := by
  have hfun :
      (fun (vx : Int) (s : QRect) =>
          if s.x + s.width > vx then s.x + s.width else vx) =
        fun (vx : Int) (s : QRect) => max vx (s.x + s.width) := by
    funext vx s
    rcases le_or_lt (s.x + s.width) vx with h | h
    · simp [not_lt.2 h, max_eq_left h]
    · simp [h, max_eq_right h.le]
  rw [virtualXOf, hfun, List.foldl_map]

/-- The virtual x origin is `max 0 (rightmost right edge)` (and `0` when
there is no screen). -/
theorem virtualXOf_eq_max (screens : List QRect) :
    virtualXOf screens =
      max 0 (((screens.map (fun s => s.x + s.width)).max?).getD 0) := by
  rw [virtualXOf_eq_foldl_max, List.foldl_max]

/-- The virtual x origin is at or beyond every regular screen's right edge. -/
theorem screen_edge_le_virtualXOf (screens : List QRect) (s : QRect)
    (hs : s ∈ screens) : s.x + s.width ≤ virtualXOf screens := by
  rw [virtualXOf_eq_foldl_max]
  exact mem_le_foldl_max _ 0 _ (List.mem_map_of_mem _ hs)

/-! ### The claims -/

/-- C1: when both `CoCreateInstance` attempts fail, `initialize` returns
`false`, `isInitialized()` remains `false`, the stored device list is empty,
and a subsequent `getAvailableDevices` built from that state is the empty
list (failure yields an empty result, not an error escape). -/
theorem C1_create_failure_yields_empty (env : InitEnv) (st : DState)
    (hni : st.m_initialized = false)
    (hp : env.primaryCreateOk = false) (ha : env.altCreateOk = false) :
    (initializeDiscovery env st).1 = false ∧
    isInitialized (initializeDiscovery env st).2 = false ∧
    ((initializeDiscovery env st).2).m_devices = [] ∧
    (getAvailableDevices env (initializeDiscovery env st).2).1 = [] := by
  simp [initializeDiscovery, getAvailableDevices, createIterator,
    isInitialized, hni, hp, ha]

theorem C1_witness :
    (initializeDiscovery failInitEnv initialState).1 = false ∧
    isInitialized (initializeDiscovery failInitEnv initialState).2 = false ∧
    ((initializeDiscovery failInitEnv initialState).2).m_devices = [] ∧
    (getAvailableDevices failInitEnv
      (initializeDiscovery failInitEnv initialState).2).1 = [] :=
  C1_create_failure_yields_empty failInitEnv initialState rfl rfl rfl

/-- C2 as frozen is false on the code: the claim says the x-origin is the
rightmost screen's right edge plus `100 * i`, but when every regular screen's
right edge is negative the code places the device at `0 + 100 * i` instead
(`virtualX` starts at `0` and only grows).  Concretely, with the single
screen `cexScreen` (right edge `-100`), the first record's x-origin is `0`,
not `-100`. -/
theorem C2_counterexample :
    (([cexScreen].map (fun s => s.x + s.width)).max? = some (-100)) ∧
    ¬ ((enumLoop ([cexScreen] : List QRect).length (virtualXOf [cexScreen])
          [some cexDevice] 0).headI.geometry.x = -100 + (0 : Int) * 100) := by
  constructor
  · rfl
  · decide

/-- C2 (amended): every record produced by enumeration is a 1920x1080
rectangle at y = 0 whose x-origin is `V + i * 100` for the device's position
`i`, where `V` is the maximum of `0` and the rightmost regular screen's
right edge; hence the x-origin is at or beyond the right edge of every
regular screen. -/
theorem C2_device_record_geometry (env : ComEnv) (st : DState)
    (hit : st.m_deckLinkIterator = true) (hok : env.outcome = .ok)
    (i : Nat) (h : i < ((enumerateDevices env st).2.m_devices).length) :
    (((enumerateDevices env st).2.m_devices).get ⟨i, h⟩).geometry =
      { x := virtualXOf env.screens + (i : Int) * 100, y := 0
      , width := 1920, height := 1080 } ∧
    virtualXOf env.screens =
      max 0 (((env.screens.map (fun s => s.x + s.width)).max?).getD 0) ∧
    ∀ s ∈ env.screens, s.x + s.width ≤ virtualXOf env.screens := by
  have hdev : (enumerateDevices env st).2.m_devices =
      enumLoop env.screens.length (virtualXOf env.screens) env.yields 0 := by
    simp [enumerateDevices, hit, hok]
  refine ⟨?_, virtualXOf_eq_max env.screens,
    fun s hs => screen_edge_le_virtualXOf env.screens s hs⟩
  revert h
  rw [hdev]
  intro h
  have := enumLoop_get_geometry env.screens.length (virtualXOf env.screens)
    env.yields 0 i h
  simpa using this

theorem C2_geometry_witness :
    (((enumerateDevices sampleComEnv iterState).2.m_devices).get
        ⟨0, of_decide_eq_true rfl⟩).geometry =
      { x := virtualXOf sampleComEnv.screens + (0 : Int) * 100, y := 0
      , width := 1920, height := 1080 } ∧
    virtualXOf sampleComEnv.screens =
      max 0 (((sampleComEnv.screens.map (fun s => s.x + s.width)).max?).getD 0) :=
  ⟨(C2_device_record_geometry sampleComEnv iterState rfl rfl 0
      (of_decide_eq_true rfl)).1,
   (C2_device_record_geometry sampleComEnv iterState rfl rfl 0
      (of_decide_eq_true rfl)).2.1⟩

/-- C3: on the success path (iterator obtained, no exception), `initialize`
returns `true` and the device list it builds equals the spec-level
algorithm's: walk the iterator to exhaustion and build one plain value
record per yielded device from that device's queried attributes and its
position; no other logic affects the result. -/
theorem C3_behaviour_is_stated_algorithm (env : InitEnv) (st : DState)
    (hni : st.m_initialized = false)
    (hcreate : (createIterator env.primaryCreateOk env.altCreateOk).1 = true)
    (hok : env.comEnv.outcome = .ok) :
    (initializeDiscovery env st).1 = true ∧
    ((initializeDiscovery env st).2).m_devices =
      specDeviceRecords env.comEnv.screens env.comEnv.yields := by
  simp [initializeDiscovery, enumerateDevices, specDeviceRecords,
    hni, hcreate, hok, enumLoop_eq_map_enumFrom, List.enum]

theorem C3_witness :
    (initializeDiscovery sampleInitEnv initialState).1 = true ∧
    ((initializeDiscovery sampleInitEnv initialState).2).m_devices =
      specDeviceRecords sampleInitEnv.comEnv.screens
        sampleInitEnv.comEnv.yields :=
  C3_behaviour_is_stated_algorithm sampleInitEnv initialState rfl rfl rfl

/-- C4: on non-Windows platforms the component is a stub: `initialize`
returns `false` and `getAvailableDevices` returns the empty list. -/
theorem C4_nonwindows_stub :
    initializeDiscoveryNonWin = false ∧
    getAvailableDevicesNonWin = ([] : List DeckLinkDeviceInfo) :=
  ⟨rfl, rfl⟩

/-- C5: enumeration adds exactly one record per non-null interface the
iterator yields (no filtering by capability), so the produced list's length
equals the number of non-null yielded devices. -/
theorem C5_one_record_per_yield (env : ComEnv) (st : DState)
    (hit : st.m_deckLinkIterator = true) (hok : env.outcome = .ok) :
    ((enumerateDevices env st).2.m_devices).length =
      env.yields.countP (fun o => o.isSome) := by
  simp [enumerateDevices, hit, hok, enumLoop_length]

theorem C5_witness :
    ((enumerateDevices sampleComEnv iterState).2.m_devices).length =
      sampleComEnv.yields.countP (fun o => o.isSome) :=
  C5_one_record_per_yield sampleComEnv iterState rfl rfl

/-- C6: iterator creation tries the primary GUID first; when that attempt
succeeds there is exactly one `CoCreateInstance` call and the alternate GUID
does not influence the outcome, and when it fails there is exactly one more
call, with the alternate GUID, whose result decides the outcome. -/
theorem C6_alternate_guid_fallback (altOk : Bool) :
    createIterator true altOk = (true, 1) ∧
    createIterator false altOk = (altOk, 2) :=
  ⟨rfl, rfl⟩

/-- C7: enumeration errors are swallowed, never propagated: an exception
inside `enumerateDevices`' try block is caught there and leaves the device
list empty without escaping, and an exception escaping `enumerateDevices`
makes `initialize` null the iterator, clear the list and return `false`.
(`initializeDiscovery` is a total function: no enumeration error escapes
it.) -/
theorem C7_enumeration_errors_swallowed (cenv : ComEnv) (st : DState)
    (ienv : InitEnv) (st' : DState) :
    (st.m_deckLinkIterator = true → cenv.outcome = .throwInLoop →
      (enumerateDevices cenv st).1 = false ∧
      (enumerateDevices cenv st).2.m_devices = []) ∧
    (st'.m_initialized = false →
      (createIterator ienv.primaryCreateOk ienv.altCreateOk).1 = true →
      ienv.comEnv.outcome = .throwBefore →
      (initializeDiscovery ienv st').1 = false ∧
      (initializeDiscovery ienv st').2.m_devices = [] ∧
      (initializeDiscovery ienv st').2.m_deckLinkIterator = false ∧
      (initializeDiscovery ienv st').2.m_initialized = false) := by
  constructor
  · intro hit hthrow
    simp [enumerateDevices, hit, hthrow]
  · intro hni hcreate hthrow
    simp [initializeDiscovery, enumerateDevices, hni, hcreate, hthrow,
      apply_ite DState.m_deckLinkIterator]

theorem C7_witness :
    ((enumerateDevices throwLoopComEnv iterState).1 = false ∧
     (enumerateDevices throwLoopComEnv iterState).2.m_devices = []) ∧
    ((initializeDiscovery throwBeforeEnv initialState).1 = false ∧
     (initializeDiscovery throwBeforeEnv initialState).2.m_devices = [] ∧
     (initializeDiscovery throwBeforeEnv initialState).2.m_deckLinkIterator
       = false ∧
     (initializeDiscovery throwBeforeEnv initialState).2.m_initialized
       = false) :=
  ⟨(C7_enumeration_errors_swallowed throwLoopComEnv iterState
      throwBeforeEnv initialState).1 rfl rfl,
   (C7_enumeration_errors_swallowed throwLoopComEnv iterState
      throwBeforeEnv initialState).2 rfl rfl rfl⟩

/-- C8: once initialization has succeeded `initialize` is idempotent: it
returns `true` immediately, touches neither COM nor the device list, and is
independent of the COM environment; and `getAvailableDevices` runs
`initialize` only when `isInitialized()` is `false`, so in an initialized
state it just returns the stored list. -/
theorem C8_idempotent_after_success (env : InitEnv) (st : DState)
    (h : isInitialized st = true) :
    initializeDiscovery env st = (true, st) ∧
    getAvailableDevices env st = (st.m_devices, st) := by
  rw [isInitialized] at h
  constructor
  · simp [initializeDiscovery, h]
  · simp [getAvailableDevices, h]

theorem C8_witness :
    initializeDiscovery sampleInitEnv readyState = (true, readyState) ∧
    getAvailableDevices sampleInitEnv readyState =
      (readyState.m_devices, readyState) :=
  C8_idempotent_after_success sampleInitEnv readyState rfl

/-- C9: in every list produced by enumeration, the `i`-th record (0-based)
has `deviceIndex` equal to the number of regular screens at enumeration time
plus `i`: indices are consecutive and start right after the regular
screens. -/
theorem C9_device_index_invariant (env : ComEnv) (st : DState)
    (hit : st.m_deckLinkIterator = true) (hok : env.outcome = .ok)
    (i : Nat) (h : i < ((enumerateDevices env st).2.m_devices).length) :
    (((enumerateDevices env st).2.m_devices).get ⟨i, h⟩).deviceIndex =
      env.screens.length + i := by
  have hdev : (enumerateDevices env st).2.m_devices =
      enumLoop env.screens.length (virtualXOf env.screens) env.yields 0 := by
    simp [enumerateDevices, hit, hok]
  revert h
  rw [hdev]
  intro h
  have := enumLoop_get_deviceIndex env.screens.length
    (virtualXOf env.screens) env.yields 0 i h
  simpa using this

theorem C9_witness :
    (((enumerateDevices sampleComEnv iterState).2.m_devices).get
        ⟨0, of_decide_eq_true rfl⟩).deviceIndex =
      sampleComEnv.screens.length + 0 :=
  C9_device_index_invariant sampleComEnv iterState rfl rfl 0
    (of_decide_eq_true rfl)

/-- C10: when the profile-attributes interface cannot be obtained, or the
video-I/O-support attribute cannot be read, `supportsPlayback` defaults to
`true`; when the attribute is read, `supportsPlayback` is `true` iff its
least-significant bit is set; and the device is appended to the list in
every case (the duplex-mode attribute, inactive or not, never excludes a
device: it does not occur in the record at all). -/
theorem C10_playback_flag_and_inclusion (base : Nat) (vx : Int)
    (devIdx : Nat) (d : DeviceCom) (rest : List (Option DeviceCom)) :
    (d.attributes = none →
      (processDevice base vx devIdx d).supportsPlayback = true) ∧
    (∀ a, d.attributes = some a → a.videoIOSupport = none →
      (processDevice base vx devIdx d).supportsPlayback = true) ∧
    (∀ a v, d.attributes = some a → a.videoIOSupport = some v →
      ((processDevice base vx devIdx d).supportsPlayback = true ↔
        Int.land v 1 ≠ 0)) ∧
    enumLoop base vx (some d :: rest) devIdx =
      processDevice base vx devIdx d :: enumLoop base vx rest (devIdx + 1) := by
  refine ⟨?_, ?_, ?_, rfl⟩
  · intro hattr
    simp [processDevice, hattr]
  · intro a hattr hio
    simp [processDevice, hattr, hio]
  · intro a v hattr hio
    simp [processDevice, hattr, hio, bne_iff_ne]

theorem C10_witness :
    (processDevice 1 1920 0 cexDevice).supportsPlayback = true ∧
    ((processDevice 1 1920 0 sampleDevice).supportsPlayback = true ↔
      Int.land 3 1 ≠ 0) ∧
    enumLoop 1 1920 [some sampleDevice] 0 =
      processDevice 1 1920 0 sampleDevice :: enumLoop 1 1920 [] 1 :=
  ⟨(C10_playback_flag_and_inclusion 1 1920 0 cexDevice []).1 rfl,
   (C10_playback_flag_and_inclusion 1 1920 0 sampleDevice []).2.2.1
     sampleAttrs 3 rfl rfl,
   (C10_playback_flag_and_inclusion 1 1920 0 sampleDevice []).2.2.2⟩

end DeckLinkDisc
